import Mathlib

/-!
Shallow embedding of the CSV upload frontend of the repository
`afforeroc/globant-section1-api-frontend`: the module `src/streamlit_app.py`
together with the `transform_df_dtypes` function that `src/frontend.py`
defines identically.  External library behaviour (pandas casts, the datetime
parser, the HTTP endpoint) is passed in as explicit function parameters, so
every theorem below quantifies over all possible behaviours of those
collaborators.
-/

/-- A cell of the tabular buffer: either the NaN / missing marker or a
concrete scalar value (integers and text cover the value kinds of the
schema registry). -/
inductive Cell where
  | nan : Cell
  | intVal : Int → Cell
  | strVal : String → Cell
deriving DecidableEq

/-- A JSON scalar as produced by the payload builder. -/
inductive JVal where
  | null : JVal
  | jint : Int → JVal
  | jstr : String → JVal
deriving DecidableEq

/-- The value round trip of `prepare_elem_df_for_api`:
`simplejson.dumps(..., ignore_nan=True)` followed by `json.loads`, which
turns every NaN marker into JSON null and keeps ordinary values. -/
def cellToJson : Cell → JVal
  | .nan => .null
  | .intVal n => .jint n
  | .strVal s => .jstr s

/-- Test whether the first character list starts the second one. -/
def charsHasPre : List Char → List Char → Bool
  | [], _ => true
  | _ :: _, [] => false
  | a :: as, b :: bs => a == b && charsHasPre as bs

/-- Test whether `needle` occurs as a contiguous substring; this models the
Python `in` operator on strings. -/
def charsHasSub (needle : List Char) : List Char → Bool
  | [] => charsHasPre needle []
  | c :: rest => charsHasPre needle (c :: rest) || charsHasSub needle rest

/-- Python `needle in hay` on strings. -/
def strContains (hay needle : String) : Bool :=
  charsHasSub needle.data hay.data

/-- Fuel-indexed scan of Python `str.replace` for a non-empty pattern:
replace every non-overlapping occurrence, scanning left to right.  The
fuel is instantiated with the input length, which always suffices. -/
def replaceFuel (pat rep : List Char) : Nat → List Char → List Char
  | _, [] => []
  | 0, l => l
  | fuel + 1, c :: rest =>
    if charsHasPre pat (c :: rest) && !pat.isEmpty then
      rep ++ replaceFuel pat rep fuel (rest.drop (pat.length - 1))
    else
      c :: replaceFuel pat rep fuel rest

/-- Python `s.replace(pat, rep)`, used by the source only with the
non-empty pattern ".csv". -/
def pyReplace (s pat rep : String) : String :=
  String.mk (replaceFuel pat.data rep.data s.data.length s.data)

/-- Python `range(start, stop, step)` as a list, in closed form:
`ceil((stop - start) / step)` entries `start`, `start + step`, ... -/
def pyRange (step start stop : Nat) : List Nat :=
  (List.range ((stop - start + step - 1) / step)).map (fun i => start + i * step)

/-- The row slicing of `np.array_split(xs, idxs)`: the pieces lie between
the consecutive division points `[0] ++ idxs ++ [xs.length]`; the
parameter `prev` carries the previous division point. -/
def splitAtIndices {α : Type} (xs : List α) : Nat → List Nat → List (List α)
  | prev, [] => [xs.drop prev]
  | prev, i :: rest => (xs.drop prev).take (i - prev) :: splitAtIndices xs i rest

/-- The module-level list `valid_filenames`. -/
def valid_filenames : List String :=
  ["hired_employees.csv", "departments.csv", "jobs.csv"]

/-- The module-level dictionary `desired_dtypes`, one entry per filename,
as an association list in key order. -/
def desired_dtypes (filename : String) : List (Nat × List String) :=
  if filename = "hired_employees.csv" then
    [(0, ["int"]), (1, ["object"]), (2, ["object"]),
     (3, ["int", "float"]), (4, ["int", "float"])]
  else if filename = "departments.csv" then
    [(0, ["int"]), (1, ["object"])]
  else if filename = "jobs.csv" then
    [(0, ["int"]), (1, ["object"])]
  else []

/-- The module-level dictionary `column_names`, one entry per filename, as
the list of new names in key order. -/
def column_names (filename : String) : List String :=
  if filename = "hired_employees.csv" then
    ["id", "name", "datetime", "department_id", "job_id"]
  else if filename = "departments.csv" then
    ["id", "department"]
  else if filename = "jobs.csv" then
    ["id", "job"]
  else []

/-- One pandas Series: the textual name of its inferred dtype and its
values in row order. -/
structure Column where
  dtype : String
  values : List Cell
deriving DecidableEq

/-- A positionally addressed DataFrame, as produced by
`pd.read_csv(..., header=None)`: column `i` sits at position `i`. -/
structure DF where
  cols : List Column
deriving DecidableEq

/-- `df.shape[1]`, the number of columns. -/
def DF.ncols (df : DF) : Nat := df.cols.length

/-- The in-place assignment `df[i] = c`. -/
def DF.setCol (df : DF) (i : Nat) (c : Column) : DF := ⟨df.cols.set i c⟩

/-- The coercion target expression `dtype_list[column][0]` of the source:
index the kind list by the column position, then take the first character
of that entry; out-of-range indexing raises. -/
def astypeTarget (dtype_list : List String) (column : Nat) : Except String String :=
  match dtype_list.get? column with
  | none => .error "IndexError: list index out of range"
  | some s =>
    match s.data with
    | [] => .error "IndexError: string index out of range"
    | c :: _ => .ok (String.mk [c])

/-- The inner loop of `transform_df_dtypes` over the acceptable kind list
of one column.  `correct` is the mutable flag `correct_dtype`; `astype`
abstracts the pandas cast `Series.astype`, which may raise.  The result is
the value of the flag at loop exit together with the (possibly updated)
frame; a raised exception is an `error`. -/
def dtypeLoop (astype : Column → String → Except String Column)
    (column : Nat) (dtype_list : List String) :
    List String → Bool → DF → Except String (Bool × DF)
  | [], correct, df => .ok (correct, df)
  | d :: rest, correct, df =>
    match df.cols.get? column with
    | none => .error "KeyError"
    | some col =>
      if strContains col.dtype d = false then
        .ok (false, df)
      else if correct = false then
        match astypeTarget dtype_list column with
        | .error e => .error e
        | .ok target =>
          match astype col target with
          | .error e => .error e
          | .ok col2 =>
            dtypeLoop astype column dtype_list rest correct (df.setCol column col2)
      else
        dtypeLoop astype column dtype_list rest correct df

/-- The outer loop of `transform_df_dtypes` over the schema entries of the
uploaded filename. -/
def dtypeOuter (astype : Column → String → Except String Column) :
    List (Nat × List String) → DF → Except String DF
  | [], df => .ok df
  | (column, dl) :: rest, df =>
    match dtypeLoop astype column dl dl true df with
    | .error e => .error e
    | .ok (_, df2) => dtypeOuter astype rest df2

/-- A single-quote character, used by the dtype error message. -/
def squote : String := String.singleton (Char.ofNat 39)

/-- `transform_df_dtypes` of the source (identical in
`src/streamlit_app.py` and `src/frontend.py`): run the nested loops inside
a `try`, turning any raised exception into the error triple. -/
def transform_df_dtypes (astype : Column → String → Except String Column)
    (filename : String) (df : DF) : Bool × Option DF × String :=
  match dtypeOuter astype (desired_dtypes filename) df with
  | .ok df2 => (true, some df2, "The data types of CSV are correct.")
  | .error e =>
    (false, none,
      "The data types of file " ++ squote ++ filename ++ squote ++
        " were not expected. Details: " ++ e)

/-- `is_valid_datetime_column` of the source.  The parameter `canParse`
models `pd.to_datetime` on a single value; the pandas call succeeds
exactly when every value of the column parses and otherwise raises, in
which case the fixed error message is returned. -/
def is_valid_datetime_column (canParse : Cell → Bool) (df : DF)
    (column_name : Nat) : Bool × String :=
  if df.ncols == 5 then
    if ((df.cols.getD column_name ⟨"", []⟩).values.all canParse) then
      (true, "")
    else
      (false, "The third column has invalid datetime values.")
  else (true, "")

/-- The renamed table: columns addressed by their semantic names. -/
structure NamedDF where
  cols : List (String × List Cell)
deriving DecidableEq

/-- `df.rename(columns=column_names[filename])`: position `i` receives the
schema name when the mapping has one and otherwise keeps its numeric
label. -/
def rename_df (filename : String) (df : DF) : NamedDF :=
  ⟨df.cols.enum.map
    (fun p => ((column_names filename).getD p.1 (toString p.1), p.2.values))⟩

/-- `len(df)`: the number of rows, read off the first column (every frame
built by pandas has columns of equal length). -/
def nrowsN (df : NamedDF) : Nat :=
  match df.cols with
  | [] => 0
  | c :: _ => c.2.length

/-- The constant `max_records` of the source. -/
def max_records : Nat := 1000

/-- `np.array_split(df, range(max_records, len(df), max_records))`:
batch `k` takes piece `k` of every column. -/
def split_df (df : NamedDF) : List NamedDF :=
  (List.range ((pyRange max_records max_records (nrowsN df)).length + 1)).map
    (fun k =>
      ⟨df.cols.map (fun c =>
        (c.1,
          (splitAtIndices c.2 0
            (pyRange max_records max_records (nrowsN df))).getD k []))⟩)

/-- The JSON body `{"table": {table_name: columns}}` posted for one
batch. -/
structure Payload where
  table_name : String
  columns : List (String × List JVal)
deriving DecidableEq

/-- `prepare_elem_df_for_api` of the source: `to_dict(orient="list")`
followed by the NaN-to-null round trip, wrapped under the table name. -/
def prepare_elem_df_for_api (table_name : String) (df : NamedDF) : Payload :=
  ⟨table_name, df.cols.map (fun c => (c.1, c.2.map cellToJson))⟩

/-- The parsed body of one endpoint response. -/
structure Resp where
  status : String
  message : String
deriving DecidableEq

/-- The submission loop of the `__main__` block: post the batches in
order, keep the message of the last response seen, and stop at the first
response whose status is "error".  The result is the triple
(`all_inserted`, `final_message`, number of batches actually posted). -/
def submitGo : List Resp → String → Nat → Bool × String × Nat
  | [], finalMsg, count => (true, finalMsg, count)
  | r :: rest, _, count =>
    if r.status = "error" then (false, r.message, count + 1)
    else submitGo rest r.message (count + 1)

/-- The submission loop started from its initial state
(`all_inserted = True`, `final_message = ""`, nothing posted yet). -/
def submit (rs : List Resp) : Bool × String × Nat := submitGo rs "" 0

/-- The expected column count derived from the filename. -/
def expected_columns (name : String) : Nat :=
  if name = "hired_employees.csv" then 5 else 2

/-- The user-visible outcome of one run of the `__main__` block, each
error constructor carrying the message shown to the user. -/
inductive Outcome where
  | invalidFilename : String → Outcome
  | emptyFile : String → Outcome
  | invalidColumnCount : String → Outcome
  | dtypeError : String → Outcome
  | datetimeError : String → Outcome
  | ready : List Payload → Outcome
  | submitted : Bool → String → Nat → Outcome
deriving DecidableEq

/-- The `__main__` pipeline of `src/streamlit_app.py` once a file has been
selected.  `parsed` is the result of `pd.read_csv` (`none` models a raised
`pd.errors.EmptyDataError`, the only exception the surrounding `try`
catches); `api` maps each posted payload to the parsed endpoint response;
`button` tells whether the submit button was pressed. -/
def main_pipeline (canParse : Cell → Bool)
    (astype : Column → String → Except String Column)
    (api : Payload → Resp) (button : Bool)
    (name : String) (parsed : Option DF) : Outcome :=
  if name ∈ valid_filenames then
    match parsed with
    | none => .emptyFile "Empty CSV file. Please upload a file with data."
    | some df =>
      if df.ncols ≠ expected_columns name then
        .invalidColumnCount
          ("Invalid number of columns. Expected " ++
            toString (expected_columns name) ++ " columns.")
      else
        match transform_df_dtypes astype name df with
        | (valid, odf, msg) =>
          if valid = false then .dtypeError msg
          else
            match is_valid_datetime_column canParse (odf.getD df) 2 with
            | (false, dmsg) => .datetimeError dmsg
            | (true, _) =>
              if button then
                match submit
                    (((split_df (rename_df name (odf.getD df))).map
                      (prepare_elem_df_for_api (pyReplace name ".csv" ""))).map api) with
                | (ok, fmsg, cnt) => .submitted ok fmsg cnt
              else
                .ready ((split_df (rename_df name (odf.getD df))).map
                  (prepare_elem_df_for_api (pyReplace name ".csv" "")))
  else .invalidFilename "Invalid filename. Please select a valid CSV filename."

/-! Concrete fixtures used by the closed instances below. -/

/-- A cast that never raises and returns the column unchanged. -/
def astypeId : Column → String → Except String Column := fun c _ => .ok c

/-- A cast that always raises; if the validator ever attempted a coercion
with this cast, the error triple would be returned. -/
def astypeRaise : Column → String → Except String Column :=
  fun _ _ => .error "astype was invoked"

/-- A datetime parser accepting every value. -/
def canParseAll : Cell → Bool := fun _ => true

/-- A datetime parser rejecting the text value "not-a-date". -/
def canParseStrict : Cell → Bool := fun c =>
  match c with
  | .strVal s => !(s == "not-a-date")
  | _ => true

/-- An endpoint answering every post with a fixed ok response. -/
def apiOk : Payload → Resp := fun _ => ⟨"ok", "done"⟩

/-- A two-column frame whose first column has dtype name "float64", which
contains none of the acceptable kind names of the departments schema. -/
def dfFloat : DF :=
  ⟨[⟨"float64", [Cell.intVal 1]⟩, ⟨"object", [Cell.strVal "x"]⟩]⟩

/-- A well-typed departments frame. -/
def dfDepartments : DF :=
  ⟨[⟨"int64", [Cell.intVal 1]⟩, ⟨"object", [Cell.strVal "sales"]⟩]⟩

/-- A five-column hired_employees frame whose third column holds a value
the datetime parser rejects. -/
def dfHired5 : DF :=
  ⟨[⟨"int64", [Cell.intVal 1]⟩, ⟨"object", [Cell.strVal "ann"]⟩,
    ⟨"object", [Cell.strVal "not-a-date"]⟩, ⟨"int64", [Cell.intVal 2]⟩,
    ⟨"int64", [Cell.intVal 3]⟩]⟩

/-- A three-column frame, matching no expected column count. -/
def dfThreeCols : DF :=
  ⟨[⟨"int64", [Cell.intVal 1]⟩, ⟨"object", [Cell.strVal "x"]⟩,
    ⟨"int64", [Cell.intVal 2]⟩]⟩

/-- A renamed table of two columns and three rows. -/
def ndfSmall : NamedDF :=
  ⟨[("id", [Cell.intVal 1, Cell.intVal 2, Cell.intVal 3]),
    ("department", [Cell.strVal "a", Cell.strVal "b", Cell.strVal "c"])]⟩

/-- A renamed table of one column and two rows. -/
def ndfTwoRows : NamedDF :=
  ⟨[("id", [Cell.intVal 1, Cell.intVal 2])]⟩

/-- A renamed table containing a NaN cell. -/
def ndfWithNaN : NamedDF :=
  ⟨[("id", [Cell.intVal 7]), ("department", [Cell.nan])]⟩

/-! Helper lemmas. -/

/-- Setting a position of a list to the element already there changes
nothing. -/
theorem list_set_self {α : Type} :
    ∀ (l : List α) (i : Nat) (h : i < l.length), l.set i (l.get ⟨i, h⟩) = l := by
  intro l
  induction l with
  | nil => intro i h; simp at h
  | cons a as ih =>
    intro i h
    cases i with
    | zero => rfl
    | succ m =>
      have h2 : m < as.length := by simpa using h
      simp only [List.set]
      exact congrArg (a :: ·) (ih m h2)

/-- Reading `getD` inside the bounds yields a member of the list. -/
theorem list_getD_mem {α : Type} :
    ∀ (l : List α) (k : Nat) (d : α), k < l.length → l.getD k d ∈ l := by
  intro l
  induction l with
  | nil => intro k d h; simp at h
  | cons a as ih =>
    intro k d h
    cases k with
    | zero => exact List.mem_cons_self a as
    | succ m => exact List.mem_cons_of_mem a (ih m d (by simpa using h))

/-- `getD` commutes with `map` inside the bounds, for any defaults. -/
theorem list_getD_map {α β : Type} (f : α → β) :
    ∀ (l : List α) (j : Nat) (d1 : α) (d2 : β), j < l.length →
      (l.map f).getD j d2 = f (l.getD j d1) := by
  intro l
  induction l with
  | nil => intro j d1 d2 h; simp at h
  | cons a as ih =>
    intro j d1 d2 h
    cases j with
    | zero => rfl
    | succ m => exact ih m d1 d2 (by simpa using h)

/-- Enumerating a list by `getD` over its range of positions gives the
list back. -/
theorem range_map_getD {α : Type} :
    ∀ (l : List α) (d : α),
      (List.range l.length).map (fun k => l.getD k d) = l := by
  intro l
  induction l with
  | nil => intro d; rfl
  | cons a as ih =>
    intro d
    rw [List.length_cons, List.range_succ_eq_map, List.map_cons, List.map_map]
    refine congrArg₂ List.cons rfl ?_
    exact ih d

/-- The exit flag of the inner dtype loop started with the flag set: the
loop neither raises, nor casts, nor touches the frame, and ends with the
flag true exactly when every acceptable kind name occurs in the textual
dtype of the column. -/
theorem dtypeLoop_all (astype : Column → String → Except String Column)
    (column : Nat) (dl : List String) (df : DF) (col : Column)
    (hcol : df.cols.get? column = some col) :
    ∀ ds : List String,
      dtypeLoop astype column dl ds true df
        = .ok (ds.all (fun d => strContains col.dtype d), df) := by
  intro ds
  induction ds with
  | nil => rfl
  | cons d rest ih =>
    simp only [dtypeLoop, hcol]
    cases hc : strContains col.dtype d with
    | false => simp [hc]
    | true => simp [hc, ih]

/-- The outer dtype loop returns the frame unchanged whenever every schema
position exists in the frame. -/
theorem dtypeOuter_id (astype : Column → String → Except String Column) :
    ∀ (entries : List (Nat × List String)) (df : DF),
      (∀ p ∈ entries, p.1 < df.cols.length) →
      dtypeOuter astype entries df = .ok df := by
  intro entries
  induction entries with
  | nil => intro df _; rfl
  | cons p rest ih =>
    intro df hb
    obtain ⟨column, dl⟩ := p
    have hc : column < df.cols.length := hb (column, dl) (List.mem_cons_self _ _)
    have hg : df.cols.get? column = some (df.cols.get ⟨column, hc⟩) :=
      List.get?_eq_get hc
    simp only [dtypeOuter, dtypeLoop_all astype column dl df _ hg]
    exact ih df (fun q hq => hb q (List.mem_cons_of_mem _ hq))

/-- `transform_df_dtypes` succeeds with the frame untouched whenever every
schema position exists in the frame. -/
theorem transform_ok (astype : Column → String → Except String Column)
    (filename : String) (df : DF)
    (hb : ∀ p ∈ desired_dtypes filename, p.1 < df.cols.length) :
    transform_df_dtypes astype filename df
      = (true, some df, "The data types of CSV are correct.") := by
  unfold transform_df_dtypes
  rw [dtypeOuter_id astype _ df hb]

/-- Length of a Python range. -/
theorem pyRange_length (step start stop : Nat) :
    (pyRange step start stop).length = (stop - start + step - 1) / step := by
  simp [pyRange]

/-- An exhausted range is empty. -/
theorem pyRange1000_nil (start stop : Nat) (h : stop ≤ start) :
    pyRange 1000 start stop = [] := by
  have hc : (stop - start + 999) / 1000 = 0 := by omega
  simp [pyRange, hc]

/-- Unfolding a stride-1000 range by one step. -/
theorem pyRange1000_cons (start stop : Nat) (h : start < stop) :
    pyRange 1000 start stop = start :: pyRange 1000 (start + 1000) stop := by
  have hcount : (stop - start + 1000 - 1) / 1000
      = (stop - (start + 1000) + 1000 - 1) / 1000 + 1 := by omega
  unfold pyRange
  rw [hcount, List.range_succ_eq_map, List.map_cons, List.map_map]
  refine congrArg₂ List.cons (by omega) ?_
  refine List.map_congr_left ?_
  intro i _
  simp only [Function.comp_apply]
  omega

/-- `np.array_split` always yields one piece more than there are division
points. -/
theorem splitAtIndices_length {α : Type} (xs : List α) :
    ∀ (idxs : List Nat) (prev : Nat),
      (splitAtIndices xs prev idxs).length = idxs.length + 1 := by
  intro idxs
  induction idxs with
  | nil => intro prev; rfl
  | cons i rest ih => intro prev; simp [splitAtIndices, ih]

/-- Concatenating the pieces of a split along a stride-1000 range restores
the list from the previous division point on. -/
theorem splitAtIndices_join {α : Type} :
    ∀ (fuel stop start prev : Nat) (xs : List α),
      stop - start ≤ fuel → prev ≤ start →
      (splitAtIndices xs prev (pyRange 1000 start stop)).flatten = xs.drop prev := by
  intro fuel
  induction fuel with
  | zero =>
    intro stop start prev xs hf hp
    rw [pyRange1000_nil start stop (by omega)]
    simp [splitAtIndices]
  | succ n ih =>
    intro stop start prev xs hf hp
    by_cases h : start < stop
    · rw [pyRange1000_cons start stop h]
      simp only [splitAtIndices, List.flatten_cons]
      rw [ih stop (start + 1000) start xs (by omega) (by omega)]
      rw [show xs.drop start = (xs.drop prev).drop (start - prev) by
        rw [List.drop_drop]; congr 1; omega]
      exact List.take_append_drop _ _
    · rw [pyRange1000_nil start stop (by omega)]
      simp [splitAtIndices]

/-- Every piece of a split along the stride-1000 range of the list length
holds at most 1000 elements. -/
theorem splitAtIndices_sizes_le {α : Type} :
    ∀ (fuel : Nat) (xs : List α) (prev : Nat),
      xs.length - prev ≤ fuel →
      ∀ b ∈ splitAtIndices xs prev (pyRange 1000 (prev + 1000) xs.length),
        b.length ≤ 1000 := by
  intro fuel
  induction fuel with
  | zero =>
    intro xs prev hf b hb
    rw [pyRange1000_nil _ _ (by omega)] at hb
    simp only [splitAtIndices, List.mem_singleton] at hb
    subst hb
    simp only [List.length_drop]
    omega
  | succ n ih =>
    intro xs prev hf b hb
    by_cases h : prev + 1000 < xs.length
    · rw [pyRange1000_cons _ _ h] at hb
      simp only [splitAtIndices, List.mem_cons] at hb
      rcases hb with hb | hb
      · subst hb
        simp only [List.length_take, List.length_drop]
        omega
      · exact ih xs (prev + 1000) (by omega) b hb
    · rw [pyRange1000_nil _ _ (by omega)] at hb
      simp only [splitAtIndices, List.mem_singleton] at hb
      subst hb
      simp only [List.length_drop]
      omega

/-- When the number of remaining rows is a positive multiple of 1000,
every piece of the split holds exactly 1000 elements. -/
theorem splitAtIndices_sizes_exact {α : Type} :
    ∀ (fuel : Nat) (xs : List α) (prev : Nat),
      xs.length - prev ≤ fuel → prev < xs.length →
      (xs.length - prev) % 1000 = 0 →
      ∀ b ∈ splitAtIndices xs prev (pyRange 1000 (prev + 1000) xs.length),
        b.length = 1000 := by
  intro fuel
  induction fuel with
  | zero => intro xs prev hf hlt hm b hb; omega
  | succ n ih =>
    intro xs prev hf hlt hm b hb
    by_cases h : prev + 1000 < xs.length
    · rw [pyRange1000_cons _ _ h] at hb
      simp only [splitAtIndices, List.mem_cons] at hb
      rcases hb with hb | hb
      · subst hb
        simp only [List.length_take, List.length_drop]
        omega
      · exact ih xs (prev + 1000) (by omega) (by omega) (by omega) b hb
    · rw [pyRange1000_nil _ _ (by omega)] at hb
      simp only [splitAtIndices, List.mem_singleton] at hb
      subst hb
      simp only [List.length_drop]
      omega

/-- Membership in `split_df` decomposed: every batch is the image of some
position below the batch count. -/
theorem split_df_mem (df : NamedDF) (b : NamedDF) (hb : b ∈ split_df df) :
    ∃ k, k < (pyRange max_records max_records (nrowsN df)).length + 1 ∧
      b = ⟨df.cols.map (fun c =>
        (c.1, (splitAtIndices c.2 0
          (pyRange max_records max_records (nrowsN df))).getD k []))⟩ := by
  unfold split_df at hb
  rcases List.mem_map.mp hb with ⟨k, hk, hFk⟩
  exact ⟨k, List.mem_range.mp hk, hFk.symm⟩

/-- Submitting a prefix of non-error responses followed by an error
response posts exactly the prefix and the failing batch, surfacing the
failing message, from any loop state. -/
theorem submitGo_first_error :
    ∀ (pre : List Resp) (msg : String) (cnt : Nat) (r : Resp) (post : List Resp),
      (∀ p ∈ pre, p.status ≠ "error") → r.status = "error" →
      submitGo (pre ++ r :: post) msg cnt = (false, r.message, cnt + pre.length + 1) := by
  intro pre
  induction pre with
  | nil =>
    intro msg cnt r post h hr
    simp [submitGo, hr]
  | cons p ps ih =>
    intro msg cnt r post h hr
    have hp : p.status ≠ "error" := h p (List.mem_cons_self _ _)
    simp only [List.cons_append, submitGo, if_neg hp, List.append_eq]
    rw [ih p.message (cnt + 1) r post (fun q hq => h q (List.mem_cons_of_mem _ hq)) hr]
    refine congrArg (fun n => ((false : Bool), r.message, n)) ?_
    simp only [List.length_cons]
    omega

/-- Submitting only non-error responses posts everything and surfaces the
message of the last response, from any loop state. -/
theorem submitGo_all_ok :
    ∀ (rs : List Resp) (msg : String) (cnt : Nat) (r : Resp),
      (∀ p ∈ rs, p.status ≠ "error") → r.status ≠ "error" →
      submitGo (rs ++ [r]) msg cnt = (true, r.message, cnt + rs.length + 1) := by
  intro rs
  induction rs with
  | nil =>
    intro msg cnt r h hr
    simp [submitGo, if_neg hr]
  | cons p ps ih =>
    intro msg cnt r h hr
    have hp : p.status ≠ "error" := h p (List.mem_cons_self _ _)
    simp only [List.cons_append, submitGo, if_neg hp, List.append_eq]
    rw [ih p.message (cnt + 1) r (fun q hq => h q (List.mem_cons_of_mem _ hq)) hr]
    refine congrArg (fun n => ((true : Bool), r.message, n)) ?_
    simp only [List.length_cons]
    omega

/-- C2: batches are submitted sequentially in batch order; at the first
response whose parsed status equals "error" the loop stops, exactly the
batches up to and including the failing one have been posted (no later
batch is ever submitted), and the failing message is surfaced; when every
response is non-error, all batches are posted and the message of the last
response is surfaced as the success. -/
theorem submission_fail_fast :
    (∀ (pre post : List Resp) (r : Resp),
        (∀ p ∈ pre, p.status ≠ "error") → r.status = "error" →
        submit (pre ++ r :: post) = (false, r.message, pre.length + 1))
  ∧ (∀ (rs : List Resp) (r : Resp),
        (∀ p ∈ rs, p.status ≠ "error") → r.status ≠ "error" →
        submit (rs ++ [r]) = (true, r.message, rs.length + 1)) := by
  constructor
  · intro pre post r h hr
    have h2 := submitGo_first_error pre "" 0 r post h hr
    simpa using h2
  · intro rs r h hr
    have h2 := submitGo_all_ok rs "" 0 r h hr
    simpa using h2

/-- Closed instance of the submission loop theorem: three batches where
the second fails post exactly two batches; three ok batches surface the
third message. -/
theorem submission_fail_fast_witness :
    submit [⟨"ok", "first"⟩, ⟨"error", "boom"⟩, ⟨"ok", "third"⟩]
        = (false, "boom", 2)
  ∧ submit [⟨"ok", "first"⟩, ⟨"ok", "second"⟩, ⟨"ok", "third"⟩]
        = (true, "third", 3) := by
  constructor
  · have h := submission_fail_fast.1 [⟨"ok", "first"⟩] [⟨"ok", "third"⟩]
      ⟨"error", "boom"⟩ (by decide) (by decide)
    simpa using h
  · have h := submission_fail_fast.2 [⟨"ok", "first"⟩, ⟨"ok", "second"⟩]
      ⟨"ok", "third"⟩ (by decide) (by decide)
    simpa using h

/-- C9: for every filename of the schema registry and every frame
containing the schema positions, the dtype validator returns success with
the frame unchanged, whatever the cast does: the coercion assignment and
the exception branch are unreachable and the error triple is never
returned. -/
theorem dtype_coercion_unreachable (astype : Column → String → Except String Column)
    (filename : String) (df : DF)
    (_hreg : filename ∈ valid_filenames)
    (hb : ∀ p ∈ desired_dtypes filename, p.1 < df.cols.length) :
    transform_df_dtypes astype filename df
      = (true, some df, "The data types of CSV are correct.") :=
  transform_ok astype filename df hb

/-- Closed instance: even with a cast that always raises, the validator
succeeds and leaves the frame untouched. -/
theorem dtype_coercion_unreachable_witness :
    transform_df_dtypes astypeRaise "departments.csv" dfDepartments
      = (true, some dfDepartments, "The data types of CSV are correct.") :=
  dtype_coercion_unreachable astypeRaise "departments.csv" dfDepartments
    (by decide) (by decide)

/-- C1 counterexample: the first column of `dfFloat` has dtype name
"float64", which contains none of its acceptable kind names (the list
`["int"]` of departments.csv), so the claim predicts a coercion attempt;
a coercion attempt with a cast that always raises would force the error
triple, yet the validator returns the untouched success triple: no
coercion is attempted. -/
theorem dtype_coercion_claim_false :
    strContains "float64" "int" = false
  ∧ transform_df_dtypes astypeRaise "departments.csv" dfFloat
      = (true, some dfFloat, "The data types of CSV are correct.") := by
  constructor
  · decide
  · decide

/-- C1 (amended): the dtype validator checks each column in schema order;
the mismatch flag of a column ends false exactly when some acceptable kind
name is absent from the textual dtype name (the inner loop breaks at the
first absent kind), but no coercion is ever attempted — the coercion
statement is unreachable — every column is left untouched and the
validator reports success, whatever the cast does. -/
theorem dtype_validator_flags_without_coercion
    (astype : Column → String → Except String Column)
    (filename : String) (df : DF) (column : Nat) (dl : List String)
    (col : Column) (hcol : df.cols.get? column = some col)
    (hb : ∀ p ∈ desired_dtypes filename, p.1 < df.cols.length) :
    dtypeLoop astype column dl dl true df
        = .ok (dl.all (fun d => strContains col.dtype d), df)
  ∧ transform_df_dtypes astype filename df
        = (true, some df, "The data types of CSV are correct.") :=
  ⟨dtypeLoop_all astype column dl df col hcol dl,
   transform_ok astype filename df hb⟩

/-- Closed instance of the amended dtype validator theorem at the frame
`dfFloat`: the flag of column 0 ends false, yet nothing is coerced. -/
theorem dtype_validator_flags_witness :
    (dtypeLoop astypeRaise 0 ["int"] ["int"] true dfFloat
        = .ok ((["int"]).all (fun d => strContains "float64" d), dfFloat))
  ∧ transform_df_dtypes astypeRaise "departments.csv" dfFloat
        = (true, some dfFloat, "The data types of CSV are correct.") :=
  dtype_validator_flags_without_coercion astypeRaise "departments.csv" dfFloat 0
    ["int"] ⟨"float64", [Cell.intVal 1]⟩ (by decide) (by decide)

/-- C6: with a valid filename, a parse that raises EmptyDataError is
caught from the parsing step and reported as the empty-file message; no
validation, batching or submission happens, whatever the parser, cast,
endpoint or button state. -/
theorem empty_file_reported (canParse : Cell → Bool)
    (astype : Column → String → Except String Column)
    (api : Payload → Resp) (button : Bool) (name : String)
    (hname : name ∈ valid_filenames) :
    main_pipeline canParse astype api button name none
      = .emptyFile "Empty CSV file. Please upload a file with data." := by
  unfold main_pipeline
  rw [if_pos hname]

/-- Closed instance of the empty-file theorem. -/
theorem empty_file_reported_witness :
    main_pipeline canParseAll astypeId apiOk true "departments.csv" none
      = Outcome.emptyFile "Empty CSV file. Please upload a file with data." :=
  empty_file_reported canParseAll astypeId apiOk true "departments.csv" (by decide)

/-- C7: a filename outside the valid set is rejected with the invalid
filename message, whatever the file content parses to and whatever every
later step would do. -/
theorem invalid_filename_rejected (canParse : Cell → Bool)
    (astype : Column → String → Except String Column)
    (api : Payload → Resp) (button : Bool) (name : String) (parsed : Option DF)
    (hname : name ∉ valid_filenames) :
    main_pipeline canParse astype api button name parsed
      = .invalidFilename "Invalid filename. Please select a valid CSV filename." := by
  unfold main_pipeline
  rw [if_neg hname]

/-- Closed instance of the filename rejection theorem. -/
theorem invalid_filename_rejected_witness :
    main_pipeline canParseAll astypeId apiOk true "evil.csv" (some dfDepartments)
      = Outcome.invalidFilename "Invalid filename. Please select a valid CSV filename." :=
  invalid_filename_rejected canParseAll astypeId apiOk true "evil.csv"
    (some dfDepartments) (by decide)

/-- C8: the expected column count is 5 for hired_employees.csv and 2 for
every other filename; a parsed frame whose column count differs is
rejected with the message naming the expected count, and no later pipeline
step runs, whatever the parser, cast, endpoint or button state. -/
theorem column_count_check (canParse : Cell → Bool)
    (astype : Column → String → Except String Column)
    (api : Payload → Resp) (button : Bool) (name : String) (df : DF)
    (hname : name ∈ valid_filenames)
    (hmis : df.ncols ≠ expected_columns name) :
    (expected_columns name = if name = "hired_employees.csv" then 5 else 2)
  ∧ main_pipeline canParse astype api button name (some df)
      = .invalidColumnCount
          ("Invalid number of columns. Expected " ++
            toString (expected_columns name) ++ " columns.") := by
  refine ⟨rfl, ?_⟩
  unfold main_pipeline
  rw [if_pos hname]
  exact if_pos hmis

/-- Closed instance of the column-count theorem at a three-column frame
uploaded as jobs.csv. -/
theorem column_count_check_witness :
    (expected_columns "jobs.csv" = if "jobs.csv" = "hired_employees.csv" then 5 else 2)
  ∧ main_pipeline canParseAll astypeId apiOk true "jobs.csv" (some dfThreeCols)
      = Outcome.invalidColumnCount
          ("Invalid number of columns. Expected " ++
            toString (expected_columns "jobs.csv") ++ " columns.") :=
  column_count_check canParseAll astypeId apiOk true "jobs.csv" dfThreeCols
    (by decide) (by decide)

/-- A rejected value anywhere in the checked column of a five-column frame
makes the datetime check fail with the fixed message. -/
theorem datetime_fail_of_bad (canParse : Cell → Bool) (df : DF)
    (h5 : df.ncols = 5)
    (hbad : ∃ v ∈ (df.cols.getD 2 ⟨"", []⟩).values, canParse v = false) :
    is_valid_datetime_column canParse df 2
      = (false, "The third column has invalid datetime values.") := by
  have hall : ((df.cols.getD 2 ⟨"", []⟩).values.all canParse) = false := by
    rcases hbad with ⟨v, hv, hfv⟩
    cases hall2 : (df.cols.getD 2 ⟨"", []⟩).values.all canParse
    · rfl
    · have h2 := (List.all_eq_true.mp hall2) v hv
      rw [hfv] at h2
      exact absurd h2 (by simp)
  have hc : (df.ncols == 5) = true := by simp [h5]
  unfold is_valid_datetime_column
  rw [if_pos hc]
  rw [if_neg (show ¬((df.cols.getD 2 ⟨"", []⟩).values.all canParse = true) from by
    rw [hall]; simp)]

/-- C4: the datetime check applies exactly to five-column frames; for such
a frame any value of column position 2 that the parser rejects makes the
check, and the whole pipeline run, fail with the fixed message, whatever
the other columns hold; a frame with another column count passes the check
whatever its content. -/
theorem datetime_check_only_five_columns (canParse : Cell → Bool) (df : DF) :
    (df.ncols = 5 →
      (∃ v ∈ (df.cols.getD 2 ⟨"", []⟩).values, canParse v = false) →
      is_valid_datetime_column canParse df 2
        = (false, "The third column has invalid datetime values."))
  ∧ (df.ncols ≠ 5 → is_valid_datetime_column canParse df 2 = (true, ""))
  ∧ (∀ (astype : Column → String → Except String Column)
       (api : Payload → Resp) (button : Bool),
      df.ncols = 5 →
      (∃ v ∈ (df.cols.getD 2 ⟨"", []⟩).values, canParse v = false) →
      main_pipeline canParse astype api button "hired_employees.csv" (some df)
        = .datetimeError "The third column has invalid datetime values.") := by
  refine ⟨datetime_fail_of_bad canParse df, ?_, ?_⟩
  · intro hne
    simp [is_valid_datetime_column, hne]
  · intro astype api button h5 hbad
    have hname : ("hired_employees.csv" : String) ∈ valid_filenames := by decide
    have hb : ∀ p ∈ desired_dtypes "hired_employees.csv", p.1 < df.cols.length := by
      intro p hp
      have h5c : df.cols.length = 5 := h5
      rw [show desired_dtypes "hired_employees.csv"
          = [(0, ["int"]), (1, ["object"]), (2, ["object"]),
             (3, ["int", "float"]), (4, ["int", "float"])] from by decide] at hp
      rw [h5c]
      fin_cases hp <;> omega
    have htr := transform_ok astype "hired_employees.csv" df hb
    have hdt := datetime_fail_of_bad canParse df h5 hbad
    have hexp : expected_columns "hired_employees.csv" = 5 := by decide
    simp [main_pipeline, hname, hexp, h5, htr, hdt]

/-- Closed instance of the datetime theorem: a hired_employees frame whose
third column holds "not-a-date" is rejected with the fixed message. -/
theorem datetime_check_witness :
    main_pipeline canParseStrict astypeId apiOk true "hired_employees.csv" (some dfHired5)
      = Outcome.datetimeError "The third column has invalid datetime values." :=
  (datetime_check_only_five_columns canParseStrict dfHired5).2.2 astypeId apiOk true
    (by decide) (by decide)

/-- C5: the payload of every batch is the table name (the filename with
".csv" stripped by Python replace) wrapping one key per renamed column, in
column order, each key bound to the ordered JSON values of that column in
the batch; a NaN cell becomes JSON null there, never the string "NaN" and
never an absent key; stripping acts as expected on the three valid
filenames. -/
theorem payload_shape_nan_null (name : String) (b : NamedDF) :
    ((prepare_elem_df_for_api (pyReplace name ".csv" "") b).table_name
        = pyReplace name ".csv" "")
  ∧ ((prepare_elem_df_for_api (pyReplace name ".csv" "") b).columns.map Prod.fst
        = b.cols.map Prod.fst)
  ∧ (∀ j, j < b.cols.length →
      ((prepare_elem_df_for_api (pyReplace name ".csv" "") b).columns.getD j ("", [])).2
        = ((b.cols.getD j ("", [])).2).map cellToJson)
  ∧ (∀ j k, j < b.cols.length → k < (b.cols.getD j ("", [])).2.length →
      (b.cols.getD j ("", [])).2.getD k Cell.nan = Cell.nan →
      ((prepare_elem_df_for_api (pyReplace name ".csv" "") b).columns.getD j
          ("", [])).2.getD k (JVal.jstr "NaN") = JVal.null)
  ∧ (pyReplace "hired_employees.csv" ".csv" "" = "hired_employees"
      ∧ pyReplace "departments.csv" ".csv" "" = "departments"
      ∧ pyReplace "jobs.csv" ".csv" "" = "jobs") := by
  refine ⟨rfl, ?_, ?_, ?_, by decide⟩
  · rw [prepare_elem_df_for_api]
    rw [List.map_map]
    rfl
  · intro j hj
    show ((b.cols.map (fun c => (c.1, c.2.map cellToJson))).getD j ("", [])).2
      = ((b.cols.getD j ("", [])).2).map cellToJson
    rw [list_getD_map _ b.cols j ("", []) ("", []) hj]
  · intro j k hj hk hnan
    show ((b.cols.map (fun c => (c.1, c.2.map cellToJson))).getD j ("", [])).2.getD k
        (JVal.jstr "NaN") = JVal.null
    rw [list_getD_map _ b.cols j ("", []) ("", []) hj]
    show ((b.cols.getD j ("", [])).2.map cellToJson).getD k (JVal.jstr "NaN") = JVal.null
    rw [list_getD_map cellToJson _ k Cell.nan (JVal.jstr "NaN") hk, hnan]
    rfl

/-- Closed instance of the payload theorem: the NaN cell of `ndfWithNaN`
appears as JSON null in the built payload. -/
theorem payload_shape_witness :
    ((prepare_elem_df_for_api (pyReplace "departments.csv" ".csv" "") ndfWithNaN).columns.getD 1
        ("", [])).2.getD 0 (JVal.jstr "NaN") = JVal.null :=
  (payload_shape_nan_null "departments.csv" ndfWithNaN).2.2.2.1 1 0
    (by decide) (by decide) (by decide)

/-- C3: batching splits the renamed table into consecutive batches of at
most 1000 rows in original row order — a 2500-row table yields exactly
the batch sizes 1000, 1000, 500 — concatenating the batches of any column
in batch order restores that column exactly, and splitting an empty table
yields a single empty batch (the table itself). -/
theorem batching_reconstruction (df : NamedDF)
    (huni : ∀ c ∈ df.cols, c.2.length = nrowsN df) :
    (∀ b ∈ split_df df, ∀ c ∈ b.cols, c.2.length ≤ max_records)
  ∧ (nrowsN df = 2500 → (split_df df).map nrowsN = [1000, 1000, 500])
  ∧ (∀ j, j < df.cols.length →
      ((split_df df).map (fun b => (b.cols.getD j ("", [])).2)).flatten
        = (df.cols.getD j ("", [])).2)
  ∧ (nrowsN df = 0 → split_df df = [df]) := by
  refine ⟨?_, ?_, ?_, ?_⟩
  · intro b hb c hc
    rcases split_df_mem df b hb with ⟨k, hk, rfl⟩
    rcases List.mem_map.mp hc with ⟨c0, hc0, rfl⟩
    simp only [max_records] at hk ⊢
    have hkp : k < (splitAtIndices c0.2 0 (pyRange 1000 1000 (nrowsN df))).length := by
      rw [splitAtIndices_length]
      exact hk
    have hle := splitAtIndices_sizes_le c0.2.length c0.2 0 (by omega)
    rw [show (0 : Nat) + 1000 = 1000 from rfl, huni c0 hc0] at hle
    exact hle _ (list_getD_mem _ k [] hkp)
  · intro h2500
    rcases hc : df.cols with _ | ⟨c0, rest⟩
    · exfalso
      simp [nrowsN, hc] at h2500
    · have hmem0 : c0 ∈ df.cols := by
        rw [hc]
        exact List.mem_cons_self _ _
      have h0len : c0.2.length = 2500 := by rw [huni c0 hmem0, h2500]
      have hidx : pyRange max_records max_records (nrowsN df) = [1000, 2000] := by
        rw [h2500]
        decide
      unfold split_df
      rw [hidx, hc]
      rw [show List.range (([1000, 2000] : List Nat).length + 1) = [0, 1, 2] from by decide]
      simp only [List.map_cons, List.map_nil]
      show [((c0.2.drop 0).take 1000).length,
            ((c0.2.drop 1000).take 1000).length,
            (c0.2.drop 2000).length] = [1000, 1000, 500]
      simp only [List.length_take, List.length_drop, h0len]
      decide
  · intro j hj
    unfold split_df
    simp only [max_records]
    rw [List.map_map]
    have hcomp : ∀ k : Nat,
        ((df.cols.map (fun c => (c.1,
            (splitAtIndices c.2 0 (pyRange 1000 1000 (nrowsN df))).getD k []))).getD j
          ("", [])).2
        = (splitAtIndices (df.cols.getD j ("", [])).2 0
            (pyRange 1000 1000 (nrowsN df))).getD k [] := by
      intro k
      rw [list_getD_map _ df.cols j ("", []) ("", []) hj]
    simp only [Function.comp_def, hcomp]
    rw [show (pyRange 1000 1000 (nrowsN df)).length + 1
        = (splitAtIndices (df.cols.getD j ("", [])).2 0
            (pyRange 1000 1000 (nrowsN df))).length from
      (splitAtIndices_length _ _ _).symm]
    rw [range_map_getD]
    have hje := splitAtIndices_join (α := Cell) (nrowsN df) (nrowsN df) 1000 0
      (df.cols.getD j ("", [])).2 (by omega) (by omega)
    simpa using hje
  · intro h0
    unfold split_df
    rw [show pyRange max_records max_records (nrowsN df) = [] from by
      rw [h0]; decide]
    rw [show List.range (([] : List Nat).length + 1) = [0] from by decide]
    simp only [List.map_cons, List.map_nil]
    refine congrArg (fun x => [x]) ?_
    show NamedDF.mk (df.cols.map (fun c => (c.1, c.2))) = df
    rw [show df.cols.map (fun c => (c.1, c.2)) = df.cols from by simp]

/-- Closed instance of the batching theorem at a two-column, three-row
table. -/
theorem batching_reconstruction_witness :
    (∀ b ∈ split_df ndfSmall, ∀ c ∈ b.cols, c.2.length ≤ max_records)
  ∧ (nrowsN ndfSmall = 2500 → (split_df ndfSmall).map nrowsN = [1000, 1000, 500])
  ∧ (∀ j, j < ndfSmall.cols.length →
      ((split_df ndfSmall).map (fun b => (b.cols.getD j ("", [])).2)).flatten
        = (ndfSmall.cols.getD j ("", [])).2)
  ∧ (nrowsN ndfSmall = 0 → split_df ndfSmall = [ndfSmall]) :=
  batching_reconstruction ndfSmall (by decide)

/-- C10: a table with at least one row is split into exactly
`ceil(rows / 1000)` batches; when the row count is an exact positive
multiple of 1000, every batch holds exactly 1000 rows, so no trailing
empty batch is produced. -/
theorem batch_count (df : NamedDF)
    (huni : ∀ c ∈ df.cols, c.2.length = nrowsN df)
    (hpos : 1 ≤ nrowsN df) :
    ((split_df df).length = (nrowsN df + 999) / 1000)
  ∧ (nrowsN df % 1000 = 0 →
      ∀ b ∈ split_df df, nrowsN b = 1000 ∧ ∀ c ∈ b.cols, c.2.length = 1000) := by
  constructor
  · unfold split_df
    rw [List.length_map, List.length_range, pyRange_length]
    simp only [max_records]
    omega
  · intro hm b hb
    rcases split_df_mem df b hb with ⟨k, hk, rfl⟩
    simp only [max_records] at hk ⊢
    have hcol : ∀ c0 ∈ df.cols,
        ((splitAtIndices c0.2 0 (pyRange 1000 1000 (nrowsN df))).getD k []).length
          = 1000 := by
      intro c0 hc0
      have hkp : k < (splitAtIndices c0.2 0 (pyRange 1000 1000 (nrowsN df))).length := by
        rw [splitAtIndices_length]
        exact hk
      have hex := splitAtIndices_sizes_exact c0.2.length c0.2 0 (by omega)
        (by rw [huni c0 hc0]; omega) (by rw [huni c0 hc0]; omega)
      rw [show (0 : Nat) + 1000 = 1000 from rfl, huni c0 hc0] at hex
      exact hex _ (list_getD_mem _ k [] hkp)
    constructor
    · rcases hc : df.cols with _ | ⟨c0, rest⟩
      · exfalso
        simp [nrowsN, hc] at hpos
      · simp only [List.map_cons]
        show ((splitAtIndices c0.2 0 (pyRange 1000 1000 (nrowsN df))).getD k []).length
          = 1000
        exact hcol c0 (by rw [hc]; exact List.mem_cons_self _ _)
    · intro c hcmem
      rcases List.mem_map.mp hcmem with ⟨c0, hc0, rfl⟩
      exact hcol c0 hc0

/-- Closed instance of the batch-count theorem at a one-column, two-row
table. -/
theorem batch_count_witness :
    ((split_df ndfTwoRows).length = (nrowsN ndfTwoRows + 999) / 1000)
  ∧ (nrowsN ndfTwoRows % 1000 = 0 →
      ∀ b ∈ split_df ndfTwoRows, nrowsN b = 1000 ∧ ∀ c ∈ b.cols, c.2.length = 1000) :=
  batch_count ndfTwoRows (by decide) (by decide)
